import Mathlib

/-
Verification of scripts/gantt.py: a one-shot script that builds a six-week
Gantt chart (task bars, milestone markers, dependency arrows) with plotly
and exports it to gantt_chart.png and gantt_chart.svg.

The embedding below translates the script's static data and its trace /
layout construction into Lean definitions; coordinates are rationals
because the script offsets positions by 0.5.
-/

namespace Gantt

/-- A row of `tasks_data`: the Python dict with keys Task, Start_Week,
Duration, Type, Description. -/
structure Task where
  task : String
  start_Week : Int
  duration : Int
  type : String
  description : String
deriving DecidableEq

/-- The hardcoded task table `tasks_data` (gantt.py lines 13-20). -/
def tasks_data : List Task :=
  [ ⟨"Village Render", 1, 1, "Frontend", "Phaser.js setup"⟩,
    ⟨"RPG Dialogue", 2, 1, "Frontend", "UI panel system"⟩,
    ⟨"MCP Integration", 3, 1, "Backend", "Real agents"⟩,
    ⟨"Bug Bot System", 4, 1, "Backend", "Probot app"⟩,
    ⟨"Performance", 5, 1, "DevOps", "Optimization"⟩,
    ⟨"Test & Launch", 6, 1, "Testing", "QA & deploy"⟩ ]

/-- The category-to-color dict `color_map` (gantt.py lines 26-31). -/
def color_map : List (String × String) :=
  [ ("Frontend", "#2E8B57"),
    ("Backend", "#1FB8CD"),
    ("DevOps", "#D2BA4C"),
    ("Testing", "#944454") ]

/-- Python `color_map[ty]`: a dict lookup that raises KeyError when the key
is absent, modelled as an Option. -/
def colorOf (ty : String) : Option String := color_map.lookup ty

/-- The fields of a `go.Bar` trace that the script sets
(gantt.py lines 38-48). -/
structure BarTrace where
  x : ℚ
  y : String
  orientation : String
  marker_color : String
  name : String
  legendgroup : String
  showlegend : Bool
  width : ℚ
  base : ℚ
deriving DecidableEq

/-- One iteration of the bar loop (gantt.py lines 37-48): builds the Bar
trace for a task row; `none` models the KeyError of `color_map[row[Type]]`. -/
def mkBar (t : Task) : Option BarTrace :=
  (colorOf t.type).map fun c =>
    { x := (t.duration : ℚ)
      y := t.task
      orientation := "h"
      marker_color := c
      name := t.type
      legendgroup := t.type
      showlegend := true
      width := 1/2
      base := (t.start_Week : ℚ) - 1/2 }

/-- The bar loop over a list of rows: traces in loop order; `none` models
the loop stopping with a KeyError. -/
def addBars : List Task → Option (List BarTrace)
  | [] => some []
  | t :: ts =>
    match mkBar t with
    | none => none
    | some b => (addBars ts).map fun bs => b :: bs

/-- The bar traces added to the figure, in loop order; `none` if any
color lookup raised. -/
def barTraces? : Option (List BarTrace) := addBars tasks_data

/-- The list of bar traces actually added (empty only if a lookup raised). -/
def barTraces : List BarTrace := barTraces?.getD []

/-- The legend-deduplication pass (gantt.py lines 50-56): walk the traces
carrying the `legend_added` set; a trace whose name was seen gets
`showlegend := false`, otherwise its name is added to the set and the trace
is left unchanged. -/
def dedupLegend : List String → List BarTrace → List BarTrace
  | _, [] => []
  | seen, t :: ts =>
    if t.name ∈ seen then
      { t with showlegend := false } :: dedupLegend seen ts
    else
      t :: dedupLegend (t.name :: seen) ts

/-- The bar traces after the legend-deduplication pass (the figure holds
only bar traces at that point). -/
def legendTraces : List BarTrace := dedupLegend [] barTraces

/-- A row of `milestones`: week offset, associated task name, label
(gantt.py lines 59-63). -/
structure Milestone where
  week : ℚ
  task : String
  label : String
deriving DecidableEq

/-- The hardcoded milestone table (gantt.py lines 59-63). -/
def milestones : List Milestone :=
  [ ⟨5/2, "RPG Dialogue", "Core UI Done"⟩,
    ⟨9/2, "Bug Bot System", "Full Integr\x27n"⟩,
    ⟨13/2, "Test & Launch", "MVP Ready"⟩ ]

/-- The dict `task_positions = \x7btask: i for i, task in enumerate(df[Task])\x7d`
(gantt.py line 65), as an association list in insertion order. -/
def task_positions : List (String × Nat) :=
  (tasks_data.map Task.task).enum.map fun p => (p.2, p.1)

/-- Python dict lookup `task_positions[t]`: the last insertion of a key
wins, so look the reversed association list up; `none` models KeyError. -/
def posOf (t : String) : Option Nat := task_positions.reverse.lookup t

/-- The fields of a milestone `go.Scatter` trace that the script sets
(gantt.py lines 69-84): x is the milestone week, y is the numeric row
index `y_pos`. -/
structure ScatterTrace where
  x : ℚ
  y : ℚ
  mode : String
  marker_symbol : String
  marker_color : String
  text : String
  showlegend : Bool
  name : String
deriving DecidableEq

/-- One iteration of the milestone loop (gantt.py lines 67-84); `none`
models the KeyError of `task_positions[milestone[task]]`. -/
def mkMilestoneTrace (m : Milestone) : Option ScatterTrace :=
  (posOf m.task).map fun y_pos =>
    { x := m.week
      y := (y_pos : ℚ)
      mode := "markers+text"
      marker_symbol := "diamond"
      marker_color := "#DB4545"
      text := m.label
      showlegend := false
      name := "Milestone" }

/-- The milestone loop over a list of milestones: traces in loop order;
`none` models the loop stopping with a KeyError. -/
def addMilestones : List Milestone → Option (List ScatterTrace)
  | [] => some []
  | m :: ms =>
    match mkMilestoneTrace m with
    | none => none
    | some t => (addMilestones ms).map fun ts => t :: ts

/-- The milestone traces added to the figure, in loop order. -/
def milestoneTraces? : Option (List ScatterTrace) := addMilestones milestones

/-- The list of milestone traces actually added. -/
def milestoneTraces : List ScatterTrace := milestoneTraces?.getD []

/-- The fields of a dependency-arrow `add_annotation` call that the script
sets (gantt.py lines 90-100): (x, y) is the arrow head, (ax, ay) the tail. -/
structure Arrow where
  x : ℚ
  y : ℚ
  ax : ℚ
  ay : ℚ
  arrowcolor : String
deriving DecidableEq

/-- Default row used only to totalise positional indexing; the arrow loop
indexes `df.iloc[i]` and `df.iloc[i+1]` for `i in range(len(df)-1)`, which
never goes out of bounds. -/
def noTask : Task := ⟨"", 0, 0, "", ""⟩

/-- The dependency-arrow loop (gantt.py lines 87-100): for each adjacent
pair of task rows, an arrow from the end of the current bar to the start
of the next one. -/
def depArrows : List Arrow :=
  (List.range (tasks_data.length - 1)).map fun i =>
    let cur := tasks_data.getD i noTask
    let nxt := tasks_data.getD (i + 1) noTask
    { x := (nxt.start_Week : ℚ) - 1/2
      y := (i : ℚ) + 1
      ax := (cur.start_Week : ℚ) + (cur.duration : ℚ) - 1/2
      ay := (i : ℚ)
      arrowcolor := "gray" }

/-- The layout fields the script sets in `update_layout`
(gantt.py lines 103-121). -/
structure Layout where
  title : String
  xaxis_tickvals : List ℚ
  xaxis_ticktext : List String
  xaxis_range : ℚ × ℚ
  yaxis_categoryorder : String
  yaxis_categoryarray : List String
  barmode : String
deriving DecidableEq

/-- The layout built by the script: x range [0.5, 7], y categories in
`list(reversed(df[Task].tolist()))` order. -/
def layout : Layout :=
  { title := "6-Week MVP Development Plan"
    xaxis_tickvals := [1, 2, 3, 4, 5, 6]
    xaxis_ticktext := ["Week 1", "Week 2", "Week 3", "Week 4", "Week 5", "Week 6"]
    xaxis_range := (1/2, 7)
    yaxis_categoryorder := "array"
    yaxis_categoryarray := (tasks_data.map Task.task).reverse
    barmode := "overlay" }

/-- The rendered row of a task name: on a plotly category axis with
`categoryorder="array"`, the k-th entry of `categoryarray` sits at axis
coordinate k, and a numeric y value k on a trace is drawn at that
coordinate; so the row of task t is its index in `yaxis_categoryarray`. -/
def renderedRow (t : String) : Option Nat :=
  layout.yaxis_categoryarray.findIdx? fun s => s == t

/-- The observable side effects the script can perform. The script performs
no argument or environment reads; the constructors for them exist so their
absence from the effect trace is a statement, not a typing accident. -/
inductive Effect where
  | fileWrite (path : String)
  | consoleOut (msg : String)
  | readArg (index : Nat)
  | readEnvVar (name : String)
deriving DecidableEq

/-- Whether an effect is a file write. -/
def isFileWrite : Effect → Bool
  | .fileWrite _ => true
  | _ => false

/-- Whether an effect reads a command-line argument. -/
def isReadArg : Effect → Bool
  | .readArg _ => true
  | _ => false

/-- Whether an effect reads an environment variable. -/
def isReadEnvVar : Effect → Bool
  | .readEnvVar _ => true
  | _ => false

/-- The tail of the script (gantt.py lines 126-129), parametrised by the
image writer (`fig.write_image`), which may fail (missing backend,
unwritable directory). The script installs no handler: a failure of either
write is returned as-is. On success the effect trace is the two file
writes followed by the final console message. -/
def runScript (w : String → Except String Unit) : Except String (List Effect) :=
  match w "gantt_chart.png" with
  | .error e => .error e
  | .ok _ =>
    match w "gantt_chart.svg" with
    | .error e => .error e
    | .ok _ =>
      .ok [ .fileWrite "gantt_chart.png",
            .fileWrite "gantt_chart.svg",
            .consoleOut "Saved gantt_chart.png and gantt_chart.svg" ]

/-- Default bar used only to totalise positional indexing in theorem
statements. -/
def noBar : BarTrace := ⟨0, "", "", "", "", "", false, 0, 0⟩

/-- Default milestone used only to totalise positional indexing in theorem
statements. -/
def noMilestone : Milestone := ⟨0, "", ""⟩

/-- Default scatter trace used only to totalise positional indexing in
theorem statements. -/
def noScatter : ScatterTrace := ⟨0, 0, "", "", "", "", false, ""⟩

/-- Default arrow used only to totalise positional indexing in theorem
statements. -/
def noArrow : Arrow := ⟨0, 0, 0, 0, ""⟩

/-- Evaluation of the color lookup at the Frontend category. -/
lemma colorOf_frontend : colorOf "Frontend" = some "#2E8B57" := rfl

/-- Evaluation of the color lookup at the Backend category. -/
lemma colorOf_backend : colorOf "Backend" = some "#1FB8CD" := rfl

/-- Evaluation of the color lookup at the DevOps category. -/
lemma colorOf_devops : colorOf "DevOps" = some "#D2BA4C" := rfl

/-- Evaluation of the color lookup at the Testing category. -/
lemma colorOf_testing : colorOf "Testing" = some "#944454" := rfl

/-- Evaluation of the position lookup at the RPG Dialogue task. -/
lemma posOf_rpg_dialogue : posOf "RPG Dialogue" = some 1 := by decide

/-- Evaluation of the position lookup at the Bug Bot System task. -/
lemma posOf_bug_bot : posOf "Bug Bot System" = some 3 := by decide

/-- Evaluation of the position lookup at the Test and Launch task. -/
lemma posOf_test_launch : posOf "Test & Launch" = some 5 := by decide

/-- The index list the dependency-arrow loop ranges over. -/
lemma range_five : List.range (tasks_data.length - 1) = [0, 1, 2, 3, 4] := by decide

/-- Claim C1: the bar-drawing loop adds exactly one Bar trace per entry of
the hardcoded task table, hence six traces for the six-task table. -/
theorem bar_trace_count :
    barTraces.length = tasks_data.length ∧ tasks_data.length = 6 := by decide

/-- Claim C2, counterexample: the first task has start week 1, but the
horizontal extent of its bar starts at base 0.5, not at 1; the claim that
the bar's extent starts at the task's start week is false (the length part
holds). -/
theorem bar_extent_start_counterexample :
    (tasks_data.getD 0 noTask).start_Week = 1 ∧
    (barTraces.getD 0 noBar).x = ((tasks_data.getD 0 noTask).duration : ℚ) ∧
    (barTraces.getD 0 noBar).base ≠ ((tasks_data.getD 0 noTask).start_Week : ℚ) := by
  refine ⟨by decide, rfl, ?_⟩
  norm_num [barTraces, barTraces?, addBars, mkBar, colorOf_frontend, colorOf_backend,
    colorOf_devops, colorOf_testing, tasks_data, noBar, noTask]

/-- Claim C2, amended: for every task, the bar's horizontal extent starts
at the task's start week minus 0.5 (the left edge of that week's cell) and
its length equals the task's duration in weeks. -/
theorem bar_extent_geometry :
    ∀ i : Fin tasks_data.length,
      (barTraces.getD i.1 noBar).base = ((tasks_data.getD i.1 noTask).start_Week : ℚ) - 1/2 ∧
      (barTraces.getD i.1 noBar).x = ((tasks_data.getD i.1 noTask).duration : ℚ) := by
  intro i
  fin_cases i <;> exact ⟨rfl, rfl⟩

/-- Witness for claim C2's amended theorem at the first task. -/
theorem bar_extent_geometry_witness :
    (barTraces.getD 0 noBar).base = ((tasks_data.getD 0 noTask).start_Week : ℚ) - 1/2 ∧
    (barTraces.getD 0 noBar).x = ((tasks_data.getD 0 noTask).duration : ℚ) := by
  exact bar_extent_geometry ⟨0, by decide⟩

/-- Claim C3: every bar's marker color is the color the category-to-color
map assigns to its task's category, and tasks sharing a category get
identical bar colors. -/
theorem bar_color_per_category :
    (∀ i : Fin tasks_data.length,
      colorOf (tasks_data.getD i.1 noTask).type = some ((barTraces.getD i.1 noBar).marker_color)) ∧
    (∀ i j : Fin tasks_data.length,
      (tasks_data.getD i.1 noTask).type = (tasks_data.getD j.1 noTask).type →
      (barTraces.getD i.1 noBar).marker_color = (barTraces.getD j.1 noBar).marker_color) := by
  decide

/-- Witness for claim C3 at the two Frontend tasks. -/
theorem bar_color_per_category_witness :
    colorOf (tasks_data.getD 0 noTask).type = some ((barTraces.getD 0 noBar).marker_color) ∧
    (barTraces.getD 0 noBar).marker_color = (barTraces.getD 1 noBar).marker_color := by
  exact ⟨bar_color_per_category.1 ⟨0, by decide⟩,
    bar_color_per_category.2 ⟨0, by decide⟩ ⟨1, by decide⟩ (by decide)⟩

/-- Claim C4: after the legend-deduplication pass, a trace shows a legend
entry exactly when it is the first trace (in figure order) carrying its
name, so each category name gets exactly one legend entry. -/
theorem legend_first_only :
    ∀ i : Fin legendTraces.length,
      (legendTraces.getD i.1 noBar).showlegend =
        ((legendTraces.map BarTrace.name).indexOf (legendTraces.getD i.1 noBar).name == i.1) := by
  decide

/-- Witness for claim C4 at the second trace (a duplicated Frontend name). -/
theorem legend_first_only_witness :
    (legendTraces.getD 1 noBar).showlegend =
      ((legendTraces.map BarTrace.name).indexOf (legendTraces.getD 1 noBar).name == 1) := by
  exact legend_first_only ⟨1, by decide⟩

/-- Claim C5, evaluated at the failing input: the first milestone is the
one attached to RPG Dialogue; its marker trace does get x = 2.5 and one
trace is added per milestone, but its numeric y is 1 while the rendered
row of RPG Dialogue (its index in the reversed categoryarray) is 4, and
axis coordinate 1 is the Performance row: the marker is not aligned to its
task's row. -/
theorem milestone_row_misaligned :
    milestones.getD 0 noMilestone = ⟨5/2, "RPG Dialogue", "Core UI Done"⟩ ∧
    milestoneTraces.length = milestones.length ∧ milestones.length = 3 ∧
    (milestoneTraces.getD 0 noScatter).x = 5/2 ∧
    (milestoneTraces.getD 0 noScatter).y = (1 : ℚ) ∧
    renderedRow "RPG Dialogue" = some 4 ∧
    layout.yaxis_categoryarray.getD 1 "" = "Performance" ∧
    (milestoneTraces.getD 0 noScatter).y ≠ (4 : ℚ) := by
  refine ⟨rfl, by decide, by decide, rfl, ?_, by decide, by decide, ?_⟩ <;>
    norm_num [milestoneTraces, milestoneTraces?, addMilestones, mkMilestoneTrace, milestones,
      posOf_rpg_dialogue, posOf_bug_bot, posOf_test_launch, noScatter]

/-- Claim C6: the dependency-arrow loop adds exactly one arrow per adjacent
task pair (five for six tasks), with tail ax at the current task's start
week plus duration minus 0.5 and head x at the next task's start week
minus 0.5. -/
theorem dependency_arrow_coords :
    depArrows.length = tasks_data.length - 1 ∧ tasks_data.length - 1 = 5 ∧
    ∀ i : Fin (tasks_data.length - 1),
      (depArrows.getD i.1 noArrow).ax =
        ((tasks_data.getD i.1 noTask).start_Week : ℚ) +
          ((tasks_data.getD i.1 noTask).duration : ℚ) - 1/2 ∧
      (depArrows.getD i.1 noArrow).x = ((tasks_data.getD (i.1 + 1) noTask).start_Week : ℚ) - 1/2 := by
  refine ⟨by decide, by decide, ?_⟩
  intro i
  fin_cases i <;> exact ⟨rfl, rfl⟩

/-- Witness for claim C6 at the first adjacent pair. -/
theorem dependency_arrow_coords_witness :
    (depArrows.getD 0 noArrow).ax =
      ((tasks_data.getD 0 noTask).start_Week : ℚ) +
        ((tasks_data.getD 0 noTask).duration : ℚ) - 1/2 ∧
    (depArrows.getD 0 noArrow).x = ((tasks_data.getD 1 noTask).start_Week : ℚ) - 1/2 := by
  exact dependency_arrow_coords.2.2 ⟨0, by decide⟩

/-- Claim C7: whenever the script runs to completion, its effect trace
holds exactly two file writes, gantt_chart.png then gantt_chart.svg, no
command-line-argument reads, no environment-variable reads, and its only
other effect is the final console message. -/
theorem script_io_effects (w : String → Except String Unit) (es : List Effect)
    (h : runScript w = .ok es) :
    es.filter isFileWrite = [.fileWrite "gantt_chart.png", .fileWrite "gantt_chart.svg"] ∧
    es.filter isReadArg = [] ∧
    es.filter isReadEnvVar = [] ∧
    es.filter (fun e => !(isFileWrite e)) =
      [.consoleOut "Saved gantt_chart.png and gantt_chart.svg"] := by
  cases hp : w "gantt_chart.png" with
  | error e => simp [runScript, hp] at h
  | ok u =>
    cases hs : w "gantt_chart.svg" with
    | error e => simp [runScript, hp, hs] at h
    | ok v =>
      simp [runScript, hp, hs] at h
      subst h
      decide

/-- Witness for claim C7 with a writer that always succeeds. -/
theorem script_io_effects_witness :
    ([Effect.fileWrite "gantt_chart.png", Effect.fileWrite "gantt_chart.svg",
        Effect.consoleOut "Saved gantt_chart.png and gantt_chart.svg"].filter isFileWrite) =
      [Effect.fileWrite "gantt_chart.png", Effect.fileWrite "gantt_chart.svg"] ∧
    ([Effect.fileWrite "gantt_chart.png", Effect.fileWrite "gantt_chart.svg",
        Effect.consoleOut "Saved gantt_chart.png and gantt_chart.svg"].filter isReadArg) = [] ∧
    ([Effect.fileWrite "gantt_chart.png", Effect.fileWrite "gantt_chart.svg",
        Effect.consoleOut "Saved gantt_chart.png and gantt_chart.svg"].filter isReadEnvVar) = [] ∧
    ([Effect.fileWrite "gantt_chart.png", Effect.fileWrite "gantt_chart.svg",
        Effect.consoleOut "Saved gantt_chart.png and gantt_chart.svg"].filter
          (fun e => !(isFileWrite e))) =
      [Effect.consoleOut "Saved gantt_chart.png and gantt_chart.svg"] := by
  exact script_io_effects (fun _ => .ok ())
    [Effect.fileWrite "gantt_chart.png", Effect.fileWrite "gantt_chart.svg",
      Effect.consoleOut "Saved gantt_chart.png and gantt_chart.svg"] rfl

/-- Claim C8: the script installs no handler, so a failure of either image
write is returned unchanged as the script's outcome. -/
theorem script_error_propagates (w : String → Except String Unit) (e : String)
    (h : w "gantt_chart.png" = .error e ∨
      (w "gantt_chart.png" = .ok () ∧ w "gantt_chart.svg" = .error e)) :
    runScript w = .error e := by
  rcases h with h1 | ⟨h1, h2⟩
  · simp [runScript, h1]
  · simp [runScript, h1, h2]

/-- Witness for claim C8 with a writer that fails like a missing backend. -/
theorem script_error_propagates_witness :
    runScript (fun _ => Except.error "no backend") = Except.error "no backend" := by
  exact script_error_propagates (fun _ => Except.error "no backend") "no backend" (Or.inl rfl)

/-- Claim C9: every task's category is a key of the color map and every
milestone's task name has a position, so both embedded dict lookups
succeed at every iteration and both loops complete without a KeyError. -/
theorem embedded_lookups_total :
    (∀ i : Fin tasks_data.length, (colorOf (tasks_data.getD i.1 noTask).type).isSome) ∧
    (∀ i : Fin milestones.length, (posOf (milestones.getD i.1 noMilestone).task).isSome) ∧
    barTraces?.isSome ∧ milestoneTraces?.isSome := by
  decide

/-- Witness for claim C9 at the first task and the first milestone. -/
theorem embedded_lookups_total_witness :
    (colorOf (tasks_data.getD 0 noTask).type).isSome ∧
    (posOf (milestones.getD 0 noMilestone).task).isSome := by
  exact ⟨embedded_lookups_total.1 ⟨0, by decide⟩, embedded_lookups_total.2.1 ⟨0, by decide⟩⟩

/-- Claim C10: the tasks form a contiguous schedule (first start week 1,
each next start equals the previous start plus duration, last task ending
at week 6), every bar lies within the x-axis range [0.5, 7], and every
dependency arrow's tail x coordinate equals its head x coordinate. -/
theorem schedule_contiguous :
    (tasks_data.getD 0 noTask).start_Week = 1 ∧
    (∀ i : Fin (tasks_data.length - 1),
      (tasks_data.getD (i.1 + 1) noTask).start_Week =
        (tasks_data.getD i.1 noTask).start_Week + (tasks_data.getD i.1 noTask).duration) ∧
    (tasks_data.getD (tasks_data.length - 1) noTask).start_Week +
      (tasks_data.getD (tasks_data.length - 1) noTask).duration - 1 = 6 ∧
    (∀ i : Fin tasks_data.length,
      layout.xaxis_range.1 ≤ (barTraces.getD i.1 noBar).base ∧
      (barTraces.getD i.1 noBar).base + (barTraces.getD i.1 noBar).x ≤ layout.xaxis_range.2) ∧
    (∀ i : Fin (tasks_data.length - 1),
      (depArrows.getD i.1 noArrow).ax = (depArrows.getD i.1 noArrow).x) := by
  refine ⟨by decide, by decide, by decide, ?_, ?_⟩
  · intro i
    fin_cases i <;> constructor <;>
      norm_num [barTraces, barTraces?, addBars, mkBar, colorOf_frontend, colorOf_backend,
        colorOf_devops, colorOf_testing, tasks_data, noBar, layout]
  · intro i
    fin_cases i <;>
      norm_num [depArrows, range_five, tasks_data, noArrow, noTask]

/-- Witness for claim C10 at the first adjacent pair, bar and arrow. -/
theorem schedule_contiguous_witness :
    (tasks_data.getD 1 noTask).start_Week =
      (tasks_data.getD 0 noTask).start_Week + (tasks_data.getD 0 noTask).duration ∧
    (layout.xaxis_range.1 ≤ (barTraces.getD 0 noBar).base ∧
      (barTraces.getD 0 noBar).base + (barTraces.getD 0 noBar).x ≤ layout.xaxis_range.2) ∧
    (depArrows.getD 0 noArrow).ax = (depArrows.getD 0 noArrow).x := by
  exact ⟨schedule_contiguous.2.1 ⟨0, by decide⟩, schedule_contiguous.2.2.2.1 ⟨0, by decide⟩,
    schedule_contiguous.2.2.2.2 ⟨0, by decide⟩⟩

end Gantt
